import Mathlib

/-!
Shallow embedding of the WebRTC output sink of `libcamera-apps`
(`src/output/webrtc_output.cpp`, `src/libs/eyecam_net.h`).

The wrapper is modelled as a trace semantics: every call into the native
transport library (`eyecam_net_init`, `eyecam_net_deinit`,
`eyecam_net_wait_for_connection`, `eyecam_net_write_video`), every log
statement and the `std::exit` call become events on a trace.  The outcomes
of the external calls (`wait_for_connection` returning connected or not,
`write_video` returning success or not) are inputs to the model, since they
are decided by the environment.

Machine integers: `timestamp_us` is a C++ `int64_t` and is modelled as an
`Int` (with explicit range hypotheses where they matter);
`last_timestamp_us` is a C++ `uint64_t` and is modelled as a `Nat` that the
operations keep below `2 ^ 64`.  The C++ expression
`timestamp_us - last_timestamp_us` converts the `int64_t` to `uint64_t`
(reduction mod `2 ^ 64`) and subtracts in `uint64_t`, i.e. mod `2 ^ 64`;
the model spells this arithmetic out.
-/

/-- Width of the C++ `uint64_t` type, as a modulus. -/
def u64Mod : Nat := 2 ^ 64

/-- Conversion of a C++ `int64_t` value to `uint64_t`: reduction mod `2^64`
(C++ integral conversion to an unsigned type). -/
def int64ToUInt64 (t : Int) : Nat := (t % (2 ^ 64 : Int)).toNat

/-- `uint64_t` subtraction `a - b`, i.e. subtraction mod `2 ^ 64`
(both arguments assumed already reduced below `2 ^ 64`). -/
def u64Sub (a b : Nat) : Nat := (a + u64Mod - b) % u64Mod

/-- Observable events of the sink: calls into the native transport library,
log output, and process exit. -/
inductive Ev where
  /-- `eyecam_net_init()` (run by the `EyecamNet` member constructor). -/
  | evInit : Ev
  /-- `eyecam_net_wait_for_connection(state, name)`. -/
  | evWait (name : String) : Ev
  /-- `eyecam_net_write_video(state, size, mem, duration_us)`.  `mem` is the
  payload pointer, modelled as an opaque `Nat` identifier. -/
  | evWrite (size : Nat) (mem : Nat) (duration_us : Nat) : Ev
  /-- `eyecam_net_deinit(state)` (run by the `EyecamNet` member destructor). -/
  | evDeinit : Ev
  /-- `LOG(1, ...)` informational output. -/
  | evLog (msg : String) : Ev
  /-- `LOG_ERROR(...)` output. -/
  | evLogError (msg : String) : Ev
  /-- `std::exit(code)`. -/
  | evExit (code : Nat) : Ev
  deriving Repr, DecidableEq

/-- The configuration fields of `VideoOptions` the sink reads:
`options->codec` and `options->webrtc` (the rendezvous name). -/
structure VideoOptions where
  codec : String
  webrtc : String
  deriving Repr, DecidableEq

/-- The mutable state of a constructed `WebrtcOutput`: the single field
`uint64_t last_timestamp_us`.  (The `EyecamNet net` member is opaque; its
effects are the `evInit`/`evDeinit` events.) -/
structure WebrtcOutput where
  last_timestamp_us : Nat
  deriving Repr, DecidableEq

/-- Result of running the `WebrtcOutput` constructor: either a constructed
object, or process termination via `std::exit`. -/
inductive CtorResult where
  | constructed (w : WebrtcOutput) : CtorResult
  | exited (code : Nat) : CtorResult
  deriving Repr, DecidableEq

/-- `WebrtcOutput::WebrtcOutput(VideoOptions const *options)`.

The member-initialiser list runs `net()` — which calls `eyecam_net_init()` —
and sets `last_timestamp_us(0)` before the body executes.  The body:
if `options->codec != "h264"`, log an error and return; otherwise log,
call `eyecam_net_wait_for_connection`, log the outcome, and if not
connected, log an error and `std::exit(51)`.

`connected` is the (environment-decided) truth value of the
`eyecam_net_wait_for_connection` result. -/
def WebrtcOutput.construct (options : VideoOptions) (connected : Bool) :
    List Ev × CtorResult :=
  let memberInitEvs : List Ev := [Ev.evInit]
  if options.codec ≠ "h264" then
    (memberInitEvs ++ [Ev.evLogError "Webrtc only works with h264 for now. Sorry!"],
      CtorResult.constructed ⟨0⟩)
  else
    let evs := memberInitEvs ++
      [Ev.evLog ("Waiting for RTC connection (namespace: " ++ options.webrtc ++ ")"),
       Ev.evWait options.webrtc,
       Ev.evLog ("Connected!? " ++ toString (if connected then 1 else 0))]
    if !connected then
      (evs ++ [Ev.evLogError "WebRTC connection failed. Shutting down.",
               Ev.evExit 51],
        CtorResult.exited 51)
    else
      (evs, CtorResult.constructed ⟨0⟩)

/-- `WebrtcOutput::outputBuffer(void *mem, size_t size, int64_t timestamp_us,
uint32_t flags)`.

Computes `timestamp_us - last_timestamp_us` in `uint64_t` arithmetic, calls
`eyecam_net_write_video` with it, then unconditionally stores
`last_timestamp_us = timestamp_us` (converted to `uint64_t`), and logs an
error if the write reported failure.  `success` is the (environment-decided)
truth value of the `eyecam_net_write_video` result; `flags` is accepted but
unused, exactly as in the source. -/
def WebrtcOutput.outputBuffer (w : WebrtcOutput) (mem : Nat) (size : Nat)
    (timestamp_us : Int) (flags : Nat) (success : Bool) :
    List Ev × WebrtcOutput :=
  let _ := flags
  let duration := u64Sub (int64ToUInt64 timestamp_us) w.last_timestamp_us
  let evs := [Ev.evWrite size mem duration] ++
    (if success then [] else [Ev.evLogError "Failed to send samples?"])
  (evs, { last_timestamp_us := int64ToUInt64 timestamp_us })

/-- `WebrtcOutput::~WebrtcOutput()` (the implicit destructor): destroys the
`EyecamNet net` member, whose destructor calls `eyecam_net_deinit(state)`. -/
def WebrtcOutput.destruct (_w : WebrtcOutput) : List Ev := [Ev.evDeinit]

/-- One frame delivered to the sink by the upstream encoder, together with
the transport's response to its write (`sendSuccess` is what
`eyecam_net_write_video` returns for this frame). -/
structure Frame where
  mem : Nat
  size : Nat
  timestamp_us : Int
  flags : Nat
  sendSuccess : Bool
  deriving Repr, DecidableEq

/-- Deliver a list of frames in order to `outputBuffer`, threading the sink
state; returns the concatenated event trace and the final state. -/
def runFrames (w : WebrtcOutput) : List Frame → List Ev × WebrtcOutput
  | [] => ([], w)
  | f :: fs =>
    let step := w.outputBuffer f.mem f.size f.timestamp_us f.flags f.sendSuccess
    let rest := runFrames step.2 fs
    (step.1 ++ rest.1, rest.2)

/-- The complete lifecycle of one sink instance: construction, then — when
the constructor did not terminate the process — delivery of all frames and
finally destruction.  When the constructor called `std::exit`, nothing else
ever runs. -/
def runLifecycle (options : VideoOptions) (connected : Bool)
    (frames : List Frame) : List Ev :=
  match WebrtcOutput.construct options connected with
  | (evs, CtorResult.exited _) => evs
  | (evs, CtorResult.constructed w) =>
    let fr := runFrames w frames
    evs ++ fr.1 ++ fr.2.destruct

/-- Is this event a `write_video` call? -/
def Ev.isWrite : Ev → Bool
  | Ev.evWrite _ _ _ => true
  | _ => false

/-- Is this event an `eyecam_net_init` call? -/
def Ev.isInit : Ev → Bool
  | Ev.evInit => true
  | _ => false

/-- Is this event an `eyecam_net_deinit` call? -/
def Ev.isDeinit : Ev → Bool
  | Ev.evDeinit => true
  | _ => false

/-- Is this event a `wait_for_connection` call? -/
def Ev.isWait : Ev → Bool
  | Ev.evWait _ => true
  | _ => false

/-- Is this event a `std::exit` call? -/
def Ev.isExit : Ev → Bool
  | Ev.evExit _ => true
  | _ => false

/-- Number of `write_video` calls on a trace. -/
def writeCount (evs : List Ev) : Nat := evs.countP (fun e => e.isWrite)

/-- Number of `eyecam_net_init` calls on a trace. -/
def initCount (evs : List Ev) : Nat := evs.countP (fun e => e.isInit)

/-- Number of `eyecam_net_deinit` calls on a trace. -/
def deinitCount (evs : List Ev) : Nat := evs.countP (fun e => e.isDeinit)

/-- Number of `wait_for_connection` calls on a trace. -/
def waitCount (evs : List Ev) : Nat := evs.countP (fun e => e.isWait)

/-- Number of `std::exit` calls on a trace. -/
def exitCount (evs : List Ev) : Nat := evs.countP (fun e => e.isExit)

/-- The `(mem, size)` payloads of the `write_video` calls on a trace, in
trace order. -/
def writePayloads (evs : List Ev) : List (Nat × Nat) :=
  evs.filterMap (fun e =>
    match e with
    | Ev.evWrite size mem _ => some (mem, size)
    | _ => none)

/-- The `duration_us` arguments of the `write_video` calls on a trace, in
trace order. -/
def writeDurations (evs : List Ev) : List Nat :=
  evs.filterMap (fun e =>
    match e with
    | Ev.evWrite _ _ d => some d
    | _ => none)

/-- The spec's formula for the sequence of durations: for timestamps
`t_0, t_1, ...` with previous baseline `prev`, the differences
`t_0 − prev, t_1 − t_0, ...`.  This definition follows the spec's words
("duration is always `t_n − t_{n−1}` with `t_{-1}` defined as 0"), to be
compared against the durations the embedded code emits. -/
def specDurations (prev : Int) : List Int → List Int
  | [] => []
  | t :: ts => (t - prev) :: specDurations t ts

/-! ### Arithmetic helper lemmas about the `uint64_t` model -/

lemma int64ToUInt64_of_nonneg (t : Int) (h0 : 0 ≤ t) (h1 : t < 2 ^ 64) :
    int64ToUInt64 t = t.toNat := by
  unfold int64ToUInt64
  omega

lemma u64Sub_of_le (a b : Nat) (hba : b ≤ a) (ha : a < 2 ^ 64) :
    u64Sub a b = a - b := by
  unfold u64Sub u64Mod
  omega

lemma u64Sub_of_gt (a b : Nat) (hab : a < b) (hb : b ≤ 2 ^ 64) :
    u64Sub a b = 2 ^ 64 - (b - a) := by
  unfold u64Sub u64Mod
  omega

lemma u64Sub_int64 (t : Int) (b : Nat) (hb : b < 2 ^ 64) :
    u64Sub (int64ToUInt64 t) b = ((t - (b : Int)) % (2 ^ 64 : Int)).toNat := by
  unfold u64Sub u64Mod int64ToUInt64
  omega

/-! ### Trace-shape helper lemmas -/

lemma outputBuffer_fst (w : WebrtcOutput) (m s : Nat) (t : Int) (fl : Nat)
    (succ : Bool) :
    (w.outputBuffer m s t fl succ).1
      = Ev.evWrite s m (u64Sub (int64ToUInt64 t) w.last_timestamp_us) ::
        (if succ then [] else [Ev.evLogError "Failed to send samples?"]) := by
  rfl

lemma outputBuffer_snd (w : WebrtcOutput) (m s : Nat) (t : Int) (fl : Nat)
    (succ : Bool) :
    (w.outputBuffer m s t fl succ).2 = ⟨int64ToUInt64 t⟩ := by
  rfl

lemma writeCount_runFrames (w : WebrtcOutput) (fs : List Frame) :
    writeCount (runFrames w fs).1 = fs.length := by
  induction fs generalizing w with
  | nil => rfl
  | cons f fs ih =>
    simp only [runFrames, writeCount] at ih ⊢
    rw [List.countP_append, outputBuffer_fst, List.countP_cons, ih]
    cases f.sendSuccess <;> simp [Ev.isWrite] <;> omega

lemma initCount_runFrames (w : WebrtcOutput) (fs : List Frame) :
    initCount (runFrames w fs).1 = 0 := by
  induction fs generalizing w with
  | nil => rfl
  | cons f fs ih =>
    simp only [runFrames, initCount] at ih ⊢
    rw [List.countP_append, outputBuffer_fst, List.countP_cons, ih]
    cases f.sendSuccess <;> simp [Ev.isInit]

lemma deinitCount_runFrames (w : WebrtcOutput) (fs : List Frame) :
    deinitCount (runFrames w fs).1 = 0 := by
  induction fs generalizing w with
  | nil => rfl
  | cons f fs ih =>
    simp only [runFrames, deinitCount] at ih ⊢
    rw [List.countP_append, outputBuffer_fst, List.countP_cons, ih]
    cases f.sendSuccess <;> simp [Ev.isDeinit]

lemma waitCount_runFrames (w : WebrtcOutput) (fs : List Frame) :
    waitCount (runFrames w fs).1 = 0 := by
  induction fs generalizing w with
  | nil => rfl
  | cons f fs ih =>
    simp only [runFrames, waitCount] at ih ⊢
    rw [List.countP_append, outputBuffer_fst, List.countP_cons, ih]
    cases f.sendSuccess <;> simp [Ev.isWait]

lemma writePayloads_runFrames (w : WebrtcOutput) (fs : List Frame) :
    writePayloads (runFrames w fs).1 = fs.map (fun f => (f.mem, f.size)) := by
  induction fs generalizing w with
  | nil => rfl
  | cons f fs ih =>
    simp only [runFrames, writePayloads, List.map_cons] at ih ⊢
    rw [List.filterMap_append, outputBuffer_fst, List.filterMap_cons, ih]
    cases f.sendSuccess <;> simp

/-- Generalised form of the duration law: starting from a state whose
`last_timestamp_us` holds (the `uint64_t` image of) a nonnegative baseline
`p`, and a chain of timestamps each at least its predecessor and all within
the nonnegative `int64_t` range, the emitted durations are exactly the
successive differences. -/
lemma writeDurations_runFrames_chain (p : Int) (fs : List Frame)
    (hp : 0 ≤ p) (hpb : p < 2 ^ 63)
    (hchain : List.Chain (· ≤ ·) p (fs.map Frame.timestamp_us))
    (hb : ∀ f ∈ fs, f.timestamp_us < 2 ^ 63) :
    writeDurations (runFrames ⟨p.toNat⟩ fs).1
      = (specDurations p (fs.map Frame.timestamp_us)).map Int.toNat := by
  induction fs generalizing p with
  | nil => rfl
  | cons f fs ih =>
    simp only [List.map_cons, List.chain_cons] at hchain
    obtain ⟨hpf, hchain'⟩ := hchain
    have hfb : f.timestamp_us < 2 ^ 63 := hb f (by simp)
    have hf0 : 0 ≤ f.timestamp_us := le_trans hp hpf
    have hconv : int64ToUInt64 f.timestamp_us = f.timestamp_us.toNat :=
      int64ToUInt64_of_nonneg _ hf0 (by omega)
    simp only [runFrames, writeDurations, specDurations, List.map_cons]
    rw [List.filterMap_append, outputBuffer_fst, List.filterMap_cons]
    have hdur : u64Sub (int64ToUInt64 f.timestamp_us) (⟨p.toNat⟩ : WebrtcOutput).last_timestamp_us
        = (f.timestamp_us - p).toNat := by
      show u64Sub (int64ToUInt64 f.timestamp_us) p.toNat = (f.timestamp_us - p).toNat
      rw [hconv, u64Sub_of_le _ _ (by omega) (by omega)]
      omega
    have hstate : ((⟨p.toNat⟩ : WebrtcOutput).outputBuffer f.mem f.size f.timestamp_us f.flags f.sendSuccess).2
        = ⟨f.timestamp_us.toNat⟩ := by
      rw [outputBuffer_snd, hconv]
    have hrest := ih f.timestamp_us hf0 hfb hchain' (fun g hg => hb g (by simp [hg]))
    rw [hstate]
    unfold writeDurations at hrest
    rw [hrest, hdur]
    cases f.sendSuccess <;> simp

/-! ### Claim theorems -/

/-- C1.  With a valid codec ("h264"), if `eyecam_net_wait_for_connection`
reports failure, the constructor calls `std::exit(51)` (the construction
result is `exited 51` and the trace ends with the exit event), and no
`eyecam_net_write_video` call ever occurs in the whole lifecycle, whatever
frames the pipeline would have delivered. -/
theorem negotiation_failure_exits_51_no_writes (options : VideoOptions)
    (frames : List Frame) (h : options.codec = "h264") :
    (WebrtcOutput.construct options false).2 = CtorResult.exited 51 ∧
    (runLifecycle options false frames).getLast? = some (Ev.evExit 51) ∧
    writeCount (runLifecycle options false frames) = 0 := by
  simp only [WebrtcOutput.construct, runLifecycle, h]
  refine ⟨by simp, by simp, ?_⟩
  simp [writeCount, Ev.isWrite]

/-- Witness for C1 at a concrete configuration and frame list. -/
theorem negotiation_failure_exits_51_no_writes_witness :
    (WebrtcOutput.construct ⟨"h264", "cam"⟩ false).2 = CtorResult.exited 51 ∧
    (runLifecycle ⟨"h264", "cam"⟩ false [⟨1, 100, 1000, 0, true⟩]).getLast?
      = some (Ev.evExit 51) ∧
    writeCount (runLifecycle ⟨"h264", "cam"⟩ false [⟨1, 100, 1000, 0, true⟩]) = 0 :=
  negotiation_failure_exits_51_no_writes ⟨"h264", "cam"⟩
    [⟨1, 100, 1000, 0, true⟩] rfl

/-- C2.  For frames delivered in order (timestamps form a nondecreasing
chain starting from the implicit baseline 0, within the `int64_t` range),
the durations passed to `write_video` are exactly the successive
differences `t_n − t_{n−1}` with `t_{-1} = 0` — so the first frame's
duration is its absolute timestamp. -/
theorem durations_are_successive_differences (frames : List Frame)
    (hchain : List.Chain (· ≤ ·) 0 (frames.map Frame.timestamp_us))
    (hb : ∀ f ∈ frames, f.timestamp_us < 2 ^ 63) :
    writeDurations (runFrames ⟨0⟩ frames).1
      = (specDurations 0 (frames.map Frame.timestamp_us)).map Int.toNat := by
  have h := writeDurations_runFrames_chain 0 frames le_rfl (by norm_num) hchain hb
  simpa using h

/-- Witness for C2: timestamps 0, 33000, 66000 yield durations
0, 33000, 33000. -/
theorem durations_are_successive_differences_witness :
    writeDurations (runFrames ⟨0⟩
        [⟨1, 10, 0, 0, true⟩, ⟨2, 10, 33000, 0, true⟩, ⟨3, 10, 66000, 0, true⟩]).1
      = [0, 33000, 33000] :=
  (durations_are_successive_differences
      [⟨1, 10, 0, 0, true⟩, ⟨2, 10, 33000, 0, true⟩, ⟨3, 10, 66000, 0, true⟩]
      (by norm_num [List.chain_cons]) (by decide)).trans (by decide)

/-- C3.  After `outputBuffer` with timestamp `t`, the stored
`last_timestamp_us` equals (the `uint64_t` image of) `t`, for either value
of the `write_video` success flag; consequently a following frame with
timestamp `t2 ≥ t` gets duration `t2 − t`, again for either success value
of the first write. -/
theorem last_timestamp_updates_unconditionally (w : WebrtcOutput)
    (m s fl m2 s2 fl2 : Nat) (succ succ2 : Bool) (t t2 : Int)
    (h0 : 0 ≤ t) (h12 : t ≤ t2) (h2 : t2 < 2 ^ 63) :
    ((w.outputBuffer m s t fl succ).2.last_timestamp_us = int64ToUInt64 t) ∧
    writeDurations
        ((w.outputBuffer m s t fl succ).2.outputBuffer m2 s2 t2 fl2 succ2).1
      = [(t2 - t).toNat] := by
  refine ⟨by rw [outputBuffer_snd], ?_⟩
  rw [outputBuffer_snd]
  have hconv : int64ToUInt64 t = t.toNat :=
    int64ToUInt64_of_nonneg _ h0 (by omega)
  have hconv2 : int64ToUInt64 t2 = t2.toNat :=
    int64ToUInt64_of_nonneg _ (le_trans h0 h12) (by omega)
  have hdur : u64Sub (int64ToUInt64 t2) (⟨int64ToUInt64 t⟩ : WebrtcOutput).last_timestamp_us
      = (t2 - t).toNat := by
    show u64Sub (int64ToUInt64 t2) (int64ToUInt64 t) = (t2 - t).toNat
    rw [hconv, hconv2, u64Sub_of_le _ _ (by omega) (by omega)]
    omega
  unfold writeDurations
  rw [outputBuffer_fst, List.filterMap_cons, hdur]
  cases succ2 <;> simp

/-- Witness for C3 at concrete inputs, with the first write failing. -/
theorem last_timestamp_updates_unconditionally_witness :
    (((⟨0⟩ : WebrtcOutput).outputBuffer 1 10 500 0 false).2.last_timestamp_us
        = int64ToUInt64 500) ∧
    writeDurations
        ((((⟨0⟩ : WebrtcOutput).outputBuffer 1 10 500 0 false).2).outputBuffer
          2 10 800 0 true).1
      = [(800 - 500 : Int).toNat] :=
  last_timestamp_updates_unconditionally ⟨0⟩ 1 10 0 2 10 0 false true 500 800
    (by decide) (by decide) (by decide)

/-- C4, counterexample.  With codec `"mjpeg"` (≠ "h264"), delivering one
frame still produces a `write_video` call: the lifecycle trace contains a
write event, so frame delivery in the "Disabled" configuration is NOT a
no-op with zero transmission side effects. -/
theorem nonh264_frame_not_noop_cex :
    writeCount (runLifecycle ⟨"mjpeg", "cam"⟩ true [⟨1, 100, 1000, 0, false⟩]) ≠ 0 := by
  decide

/-- C4, amended.  For every codec other than "h264", the constructor never
negotiates a connection (no `wait_for_connection` call anywhere in the
lifecycle), but frame delivery is not disabled: every frame still produces
exactly one `write_video` call. -/
theorem nonh264_skips_negotiation_but_still_writes (options : VideoOptions)
    (connected : Bool) (frames : List Frame) (h : options.codec ≠ "h264") :
    waitCount (runLifecycle options connected frames) = 0 ∧
    writeCount (runLifecycle options connected frames) = frames.length := by
  simp only [runLifecycle, WebrtcOutput.construct, if_pos h]
  constructor
  · unfold waitCount
    rw [List.countP_append, List.countP_append]
    have h1 : waitCount (runFrames ⟨0⟩ frames).1 = 0 := waitCount_runFrames _ _
    unfold waitCount at h1
    rw [h1]
    simp [WebrtcOutput.destruct, Ev.isWait]
  · unfold writeCount
    rw [List.countP_append, List.countP_append]
    have h1 : writeCount (runFrames ⟨0⟩ frames).1 = frames.length :=
      writeCount_runFrames _ _
    unfold writeCount at h1
    rw [h1]
    simp [WebrtcOutput.destruct, Ev.isWrite]

/-- Witness for the amended C4 at a concrete configuration. -/
theorem nonh264_skips_negotiation_but_still_writes_witness :
    waitCount (runLifecycle ⟨"mjpeg", "cam"⟩ true [⟨1, 100, 1000, 0, false⟩]) = 0 ∧
    writeCount (runLifecycle ⟨"mjpeg", "cam"⟩ true [⟨1, 100, 1000, 0, false⟩]) = 1 :=
  nonh264_skips_negotiation_but_still_writes ⟨"mjpeg", "cam"⟩ true
    [⟨1, 100, 1000, 0, false⟩] (by decide)

/-- C5.  A codec mismatch is absorbed in the constructor: it returns exactly
the error-log trace (after the member initialisation's `eyecam_net_init`),
with no `wait_for_connection` call, no `std::exit`, and a normally
constructed object with `last_timestamp_us = 0`. -/
theorem codec_mismatch_is_soft (options : VideoOptions) (connected : Bool)
    (h : options.codec ≠ "h264") :
    WebrtcOutput.construct options connected
      = ([Ev.evInit, Ev.evLogError "Webrtc only works with h264 for now. Sorry!"],
         CtorResult.constructed ⟨0⟩) := by
  simp [WebrtcOutput.construct, if_pos h]

/-- Witness for C5 at a concrete configuration. -/
theorem codec_mismatch_is_soft_witness :
    WebrtcOutput.construct ⟨"mjpeg", "cam"⟩ true
      = ([Ev.evInit, Ev.evLogError "Webrtc only works with h264 for now. Sorry!"],
         CtorResult.constructed ⟨0⟩) :=
  codec_mismatch_is_soft ⟨"mjpeg", "cam"⟩ true (by decide)

lemma deinitCount_full (ctorEvs : List Ev) (w : WebrtcOutput) (frames : List Frame)
    (h : deinitCount ctorEvs = 0) :
    deinitCount (ctorEvs ++ (runFrames w frames).1 ++ w.destruct) = 1 := by
  unfold deinitCount at h ⊢
  rw [List.countP_append, List.countP_append, h]
  have h1 := deinitCount_runFrames w frames
  unfold deinitCount at h1
  rw [h1]
  simp [WebrtcOutput.destruct, Ev.isDeinit]

lemma initCount_full (ctorEvs : List Ev) (w : WebrtcOutput) (frames : List Frame)
    (h : initCount ctorEvs = 1) :
    initCount (ctorEvs ++ (runFrames w frames).1 ++ w.destruct) = 1 := by
  unfold initCount at h ⊢
  rw [List.countP_append, List.countP_append, h]
  have h1 := initCount_runFrames w frames
  unfold initCount at h1
  rw [h1]
  simp [WebrtcOutput.destruct, Ev.isInit]

lemma getLast?_append_singleton (l : List Ev) (a : Ev) :
    (l ++ [a]).getLast? = some a := by
  induction l with
  | nil => rfl
  | cons x xs ih =>
    rw [List.cons_append, List.getLast?_cons, ih]
    cases xs <;> rfl

/-- C6, counterexample.  On the negotiation-failure path (codec "h264",
`wait_for_connection` returns failure), the lifecycle trace contains the
`std::exit(51)` event and NO `eyecam_net_deinit` call: `std::exit` bypasses
the `EyecamNet` destructor, so the session is not released on that path. -/
theorem deinit_missing_on_negotiation_failure_cex :
    deinitCount (runLifecycle ⟨"h264", "cam"⟩ false []) = 0 ∧
    exitCount (runLifecycle ⟨"h264", "cam"⟩ false []) = 1 := by
  constructor
  · simp [runLifecycle, WebrtcOutput.construct, deinitCount, Ev.isDeinit]
  · simp [runLifecycle, WebrtcOutput.construct, exitCount, Ev.isExit]

/-- C6, amended.  `eyecam_net_deinit` is called exactly once whenever the
constructor completes (returns a constructed object), i.e. on every
non-process-terminating path; but on the path where the constructor calls
`std::exit`, `deinit` is never called at all. -/
theorem deinit_once_iff_no_exit (options : VideoOptions) (connected : Bool)
    (frames : List Frame) :
    (∀ w, (WebrtcOutput.construct options connected).2 = CtorResult.constructed w →
      deinitCount (runLifecycle options connected frames) = 1) ∧
    (∀ c, (WebrtcOutput.construct options connected).2 = CtorResult.exited c →
      deinitCount (runLifecycle options connected frames) = 0) := by
  by_cases hc : options.codec = "h264"
  · cases connected with
    | false =>
      constructor
      · intro w hw
        simp [WebrtcOutput.construct, hc] at hw
      · intro c _
        simp [runLifecycle, WebrtcOutput.construct, hc, deinitCount, Ev.isDeinit]
    | true =>
      constructor
      · intro w _
        simp only [runLifecycle, WebrtcOutput.construct, hc]
        simp only [ite_not, if_pos rfl, Bool.not_true, Bool.false_eq_true, if_false]
        exact deinitCount_full _ ⟨0⟩ frames (by simp [deinitCount, Ev.isDeinit])
      · intro c hcode
        simp [WebrtcOutput.construct, hc] at hcode
  · constructor
    · intro w _
      simp only [runLifecycle, WebrtcOutput.construct, if_pos hc]
      exact deinitCount_full _ ⟨0⟩ frames (by simp [deinitCount, Ev.isDeinit])
    · intro c hcode
      simp [WebrtcOutput.construct, if_pos hc] at hcode

/-- Witness for the amended C6 at a concrete successful run. -/
theorem deinit_once_iff_no_exit_witness :
    deinitCount (runLifecycle ⟨"h264", "cam"⟩ true [⟨1, 100, 1000, 0, true⟩]) = 1 :=
  (deinit_once_iff_no_exit ⟨"h264", "cam"⟩ true [⟨1, 100, 1000, 0, true⟩]).1 ⟨0⟩ rfl

/-- C7.  For every adapter whose construction completes (is not terminated
by `std::exit`), the full lifecycle performs exactly one `eyecam_net_init`
and exactly one `eyecam_net_deinit`: no double release, no missing
release. -/
theorem session_acquired_and_released_once (options : VideoOptions)
    (connected : Bool) (frames : List Frame) (w : WebrtcOutput)
    (h : (WebrtcOutput.construct options connected).2 = CtorResult.constructed w) :
    initCount (runLifecycle options connected frames) = 1 ∧
    deinitCount (runLifecycle options connected frames) = 1 := by
  by_cases hc : options.codec = "h264"
  · cases connected with
    | false => simp [WebrtcOutput.construct, hc] at h
    | true =>
      simp only [runLifecycle, WebrtcOutput.construct, hc]
      simp only [ite_not, if_pos rfl, Bool.not_true, Bool.false_eq_true, if_false]
      exact ⟨initCount_full _ ⟨0⟩ frames (by simp [initCount, Ev.isInit]),
        deinitCount_full _ ⟨0⟩ frames (by simp [deinitCount, Ev.isDeinit])⟩
  · simp only [runLifecycle, WebrtcOutput.construct, if_pos hc]
    exact ⟨initCount_full _ ⟨0⟩ frames (by simp [initCount, Ev.isInit]),
      deinitCount_full _ ⟨0⟩ frames (by simp [deinitCount, Ev.isDeinit])⟩

/-- Witness for C7 at a concrete successful run. -/
theorem session_acquired_and_released_once_witness :
    initCount (runLifecycle ⟨"h264", "cam"⟩ true [⟨1, 100, 1000, 0, true⟩]) = 1 ∧
    deinitCount (runLifecycle ⟨"h264", "cam"⟩ true [⟨1, 100, 1000, 0, true⟩]) = 1 :=
  session_acquired_and_released_once ⟨"h264", "cam"⟩ true
    [⟨1, 100, 1000, 0, true⟩] ⟨0⟩ rfl

/-- C8.  Delivering any list of frames to `outputBuffer` produces exactly
one `write_video` attempt per frame, and the `(mem, size)` payloads of the
write events are the frames' payloads in the exact order received — no
buffering, no retry, no reordering, no dropped write attempt (even for
frames whose write fails). -/
theorem frames_forwarded_in_order (w : WebrtcOutput) (frames : List Frame) :
    writePayloads (runFrames w frames).1 = frames.map (fun f => (f.mem, f.size)) ∧
    writeCount (runFrames w frames).1 = frames.length :=
  ⟨writePayloads_runFrames w frames, writeCount_runFrames w frames⟩

/-- C9.  The duration handed to `write_video` is computed mod `2 ^ 64`:
it equals `(timestamp_us − last_timestamp_us) mod 2 ^ 64` as integers
(with the `int64_t` timestamp converted to `uint64_t`).  When the previous
value does not exceed the timestamp the result is the exact difference;
when the timestamp is smaller (non-monotonic input) the result wraps to
`2 ^ 64 − (last − t)`, which is nonzero (not clamped) and at least `2 ^ 63`
whenever the previous value is at most `2 ^ 63`. -/
theorem duration_is_u64_modular (w : WebrtcOutput) (m s fl : Nat)
    (succ : Bool) (t : Int) (hw : w.last_timestamp_us < 2 ^ 64) :
    writeDurations (w.outputBuffer m s t fl succ).1
      = [((t - (w.last_timestamp_us : Int)) % (2 ^ 64 : Int)).toNat] ∧
    (0 ≤ t → (w.last_timestamp_us : Int) ≤ t → t < 2 ^ 64 →
      ((t - (w.last_timestamp_us : Int)) % (2 ^ 64 : Int)).toNat
        = t.toNat - w.last_timestamp_us) ∧
    (0 ≤ t → t < (w.last_timestamp_us : Int) →
      ((t - (w.last_timestamp_us : Int)) % (2 ^ 64 : Int)).toNat
          = 2 ^ 64 - (w.last_timestamp_us - t.toNat) ∧
      0 < ((t - (w.last_timestamp_us : Int)) % (2 ^ 64 : Int)).toNat ∧
      (w.last_timestamp_us ≤ 2 ^ 63 →
        2 ^ 63 ≤ ((t - (w.last_timestamp_us : Int)) % (2 ^ 64 : Int)).toNat)) := by
  refine ⟨?_, ?_, ?_⟩
  · unfold writeDurations
    rw [outputBuffer_fst, List.filterMap_cons, u64Sub_int64 _ _ hw]
    cases succ <;> simp
  · intro h0 hle hlt
    omega
  · intro h0 hgt
    refine ⟨by omega, by omega, fun hb => by omega⟩

/-- Witness for C9 at a concrete non-monotonic input: previous timestamp
1000, next timestamp 400. -/
theorem duration_is_u64_modular_witness :
    writeDurations ((⟨1000⟩ : WebrtcOutput).outputBuffer 1 10 400 0 true).1
      = [((400 - (1000 : Int)) % (2 ^ 64 : Int)).toNat] :=
  (duration_is_u64_modular ⟨1000⟩ 1 10 0 true 400 (by norm_num)).1

/-- C10.  Even with a codec other than "h264" (the "Disabled"
configuration), the lifecycle's first event is the unconditional
`eyecam_net_init` from the member initialiser, the session is acquired
exactly once, and it is released by `eyecam_net_deinit` exactly once as the
very last event of the lifecycle — the disabled adapter holds a live
session for its entire lifetime. -/
theorem disabled_adapter_still_holds_session (options : VideoOptions)
    (connected : Bool) (frames : List Frame) (h : options.codec ≠ "h264") :
    (runLifecycle options connected frames).head? = some Ev.evInit ∧
    initCount (runLifecycle options connected frames) = 1 ∧
    deinitCount (runLifecycle options connected frames) = 1 ∧
    (runLifecycle options connected frames).getLast? = some Ev.evDeinit := by
  simp only [runLifecycle, WebrtcOutput.construct, if_pos h]
  refine ⟨by simp, ?_, ?_, ?_⟩
  · exact initCount_full _ ⟨0⟩ frames (by simp [initCount, Ev.isInit])
  · exact deinitCount_full _ ⟨0⟩ frames (by simp [deinitCount, Ev.isDeinit])
  · show (_ ++ _ ++ [Ev.evDeinit]).getLast? = some Ev.evDeinit
    exact getLast?_append_singleton _ _

/-- Witness for C10 at a concrete configuration. -/
theorem disabled_adapter_still_holds_session_witness :
    (runLifecycle ⟨"mjpeg", "cam"⟩ true [⟨1, 100, 1000, 0, false⟩]).head?
        = some Ev.evInit ∧
    initCount (runLifecycle ⟨"mjpeg", "cam"⟩ true [⟨1, 100, 1000, 0, false⟩]) = 1 ∧
    deinitCount (runLifecycle ⟨"mjpeg", "cam"⟩ true [⟨1, 100, 1000, 0, false⟩]) = 1 ∧
    (runLifecycle ⟨"mjpeg", "cam"⟩ true [⟨1, 100, 1000, 0, false⟩]).getLast?
        = some Ev.evDeinit :=
  disabled_adapter_still_holds_session ⟨"mjpeg", "cam"⟩ true
    [⟨1, 100, 1000, 0, false⟩] (by decide)
